import Mathlib

/-!
Shallow embedding of snakeplane's `helper_classes.py` (anchor/record
lifecycle subsystem): column schemas (`AnchorMetadata`), input channel
state (`AyxPluginInterface`), plugin aggregate queries (`AyxPlugin`), and
output channel push/metadata negotiation (`OutputAnchor`).

Python dynamic values are modelled by `PyObj`; Python exceptions by an
explicit `PyErr` result component (mutating methods that can raise return
the post-mutation state together with an optional error, matching Python
semantics where mutations performed before the raise persist).
-/

set_option autoImplicit false

namespace Snakeplane

/-- Python exceptions that the modelled code paths can raise. -/
inductive PyErr where
  | indexError
  | typeError
  | importError
  | attributeError
deriving DecidableEq, Repr

/-- Scalar cell values carried in records (Int, Float, Bool, String, Bytes,
null in the source; floats are irrelevant to the modelled control flow and
are omitted as a constructor). -/
inductive Cell where
  | int : Int → Cell
  | str : String → Cell
  | bool : Bool → Cell
  | null : Cell
deriving DecidableEq, Repr

/-- A row tuple: ordered cell values. -/
abbrev Row := List Cell

/-- A dynamic Python value as stored in `OutputAnchor._data`: a scalar, a
Python list (possibly nested, e.g. a list of rows), or a pandas DataFrame
(modelled by its list of rows, the only view the code takes of it). -/
inductive PyObj where
  | cell : Cell → PyObj
  | listObj : List PyObj → PyObj
  | dataframe : List Row → PyObj

/-- `type(x) == list` in Python. -/
def PyObj.isListObj : PyObj → Bool
  | .listObj _ => true
  | _ => false

/-- `interface_utils.is_dataframe(x)`. Modelled from the spec: the tabular
interop boundary recognises table-shaped payloads (the concrete check
lives in `interface_utilities`, which is not under `src/`). -/
def is_dataframe : Option PyObj → Bool
  | some (.dataframe _) => true
  | _ => false

/-- `interface_utils.dataframe_to_list(df)`. Modelled from the spec: a
table converts to the ordered list of its rows, each row a list of cells
(`interface_utilities` is not under `src/`). -/
def dataframe_to_list (rows : List Row) : PyObj :=
  .listObj (rows.map (fun r => .listObj (r.map .cell)))

/-- The `Column_Metadata` namedtuple: name, type, size, scale, source,
description. -/
structure Column_Metadata where
  name : String
  colType : String
  size : Nat
  scale : Nat
  source : String
  description : String
deriving DecidableEq, Repr

/-- `AnchorMetadata`: an ordered column schema. -/
structure AnchorMetadata where
  columns : List Column_Metadata
deriving DecidableEq, Repr

/-- `AnchorMetadata.add_column`: appends a descriptor built from the
arguments (source defaults: size=256, scale=0, source="", description="").
The source performs no duplicate-name check. -/
def AnchorMetadata.add_column (m : AnchorMetadata) (name : String)
    (colType : String) (size : Nat) (scale : Nat) (source : String)
    (description : String) : AnchorMetadata :=
  { m with columns :=
      m.columns ++ [⟨name, colType, size, scale, source, description⟩] }

/-- Auxiliary loop for `index_of` (the `enumerate` walk). -/
def index_of_from (name : String) : Nat → List Column_Metadata → Int
  | _, [] => -1
  | i, c :: rest =>
      if c.name = name then (i : Int) else index_of_from name (i + 1) rest

/-- `AnchorMetadata.index_of`: first index of the column named `name`, or
the sentinel `-1`. -/
def AnchorMetadata.index_of (m : AnchorMetadata) (name : String) : Int :=
  index_of_from name 0 m.columns

/-- `AnchorMetadata.get_column_names`. -/
def AnchorMetadata.get_column_names (m : AnchorMetadata) : List String :=
  m.columns.map Column_Metadata.name

/-- `AnchorMetadata.get_column_by_name`: descriptor or `None`. -/
def AnchorMetadata.get_column_by_name (m : AnchorMetadata) (name : String) :
    Option Column_Metadata :=
  let index := m.index_of name
  if index = -1 then none else m.columns.get? index.toNat

/-- `self._interface_record_vars` of `AyxPluginInterface` (a
SimpleNamespace): the engine-side record descriptor of the connection, the
accumulated row buffer, and the column metadata observed on it. `ε` is the
opaque engine record-info type (`sdk.RecordInfo` on the input side). -/
structure InterfaceRecordVars (ε : Type) where
  record_info_in : Option ε
  record_list_in : List Row
  column_metadata : Option AnchorMetadata
deriving DecidableEq, Repr

/-- `self._interface_state` of `AyxPluginInterface`: completion flag,
progress, processing mode. Progress is a float in the source; it is only
ever carried along here, so an abstract `Int` stands in for it. -/
structure InterfaceState where
  input_complete : Bool
  d_progress_percentage : Int
  data_processing_mode : String
deriving DecidableEq, Repr

/-- `AyxPluginInterface`: one input connection. -/
structure AyxPluginInterface (ε : Type) where
  name : String
  initialized : Bool
  record_vars : InterfaceRecordVars ε
  state : InterfaceState
deriving DecidableEq, Repr

/-- `AyxPluginInterface.is_complete`. -/
def AyxPluginInterface.is_complete {ε : Type} (c : AyxPluginInterface ε) :
    Bool :=
  c.state.input_complete

/-- `AyxPluginInterface.set_completed`. -/
def AyxPluginInterface.set_completed {ε : Type} (c : AyxPluginInterface ε) :
    AyxPluginInterface ε :=
  { c with state := { c.state with input_complete := true } }

/-- `AyxPluginInterface.set_col_metadata`. -/
def AyxPluginInterface.set_col_metadata {ε : Type}
    (c : AyxPluginInterface ε) (val : AnchorMetadata) :
    AyxPluginInterface ε :=
  { c with record_vars := { c.record_vars with column_metadata := some val } }

/-- `AyxPluginInterface.set_record_info_in`. -/
def AyxPluginInterface.set_record_info_in {ε : Type}
    (c : AyxPluginInterface ε) (record_info : ε) : AyxPluginInterface ε :=
  { c with record_vars := { c.record_vars with record_info_in := some record_info } }

/-- `AyxPluginInterface.create_record_for_input_records_list`: decodes an
engine record (`ρ`) against the connection's `record_info_in` into a row
and its derived column metadata. The per-field extraction
(`interface_utils.get_dynamic_type_value` / `get_column_metadata`) lives in
`interface_utilities`, not under `src/`; it is abstracted as the `decode`
parameter (Record Codec `decode` in the spec). -/
def AyxPluginInterface.create_record_for_input_records_list {ε ρ : Type}
    (decode : ρ → Option ε → Row × AnchorMetadata)
    (c : AyxPluginInterface ε) (in_record : ρ) : Row × AnchorMetadata :=
  decode in_record c.record_vars.record_info_in

/-- `AyxPluginInterface.accumulate_record`: decode the record, store the
derived column metadata on the interface, and append the row to the
buffer. -/
def AyxPluginInterface.accumulate_record {ε ρ : Type}
    (decode : ρ → Option ε → Row × AnchorMetadata)
    (c : AyxPluginInterface ε) (record : ρ) : AyxPluginInterface ε :=
  let rc := c.create_record_for_input_records_list decode record
  let c1 := c.set_col_metadata rc.2
  { c1 with record_vars :=
      { c1.record_vars with record_list_in := c1.record_vars.record_list_in ++ [rc.1] } }

/-- Result of the `AyxPluginInterface.data` property: a single row
(stream/list mode), the whole buffer (list mode), or a DataFrame built
from the buffer and the column names. -/
inductive DataVal where
  | row : Row → DataVal
  | rows : List Row → DataVal
  | dataframe : List Row → List String → DataVal
deriving DecidableEq, Repr

/-- `AyxPluginInterface.data` (property): in stream mode with list input
type it reads `record_list_in[0]` (IndexError on an empty buffer); with
list input type otherwise it returns the whole buffer; otherwise it
requires pandas (ImportError when absent) and builds a DataFrame from the
buffer and `column_metadata.get_column_names()` (AttributeError when the
metadata is unset). `pandasAvailable`, `mode` and `inputType` stand for
`pd is not None`, `parent.process_data_mode` and
`parent.process_data_input_type`. -/
def AyxPluginInterface.data {ε : Type} (pandasAvailable : Bool)
    (mode inputType : String) (c : AyxPluginInterface ε) :
    Except PyErr DataVal :=
  if mode = "stream" ∧ inputType = "list" then
    match c.record_vars.record_list_in with
    | [] => .error .indexError
    | r :: _ => .ok (.row r)
  else if inputType = "list" then
    .ok (.rows c.record_vars.record_list_in)
  else if pandasAvailable then
    match c.record_vars.column_metadata with
    | none => .error .attributeError
    | some md => .ok (.dataframe c.record_vars.record_list_in md.get_column_names)
  else
    .error .importError

/-- The plugin state relevant to the aggregate queries
(`self._state_vars`): the initialized flag, the name-keyed input anchors
(each a list of attached connections), and the required input names. -/
structure AyxPlugin (ε : Type) where
  initialized : Bool
  input_anchors : List (String × List (AyxPluginInterface ε))
  required_input_names : List String
deriving DecidableEq, Repr

/-- `self._state_vars.input_anchors[name]`: the connections attached to a
named anchor (the constructor guarantees every required name is a key; a
missing key behaves as no connections). -/
def AyxPlugin.lookup_anchor {ε : Type} (p : AyxPlugin ε) (name : String) :
    List (AyxPluginInterface ε) :=
  ((p.input_anchors.find? (fun kv => kv.1 = name)).map Prod.snd).getD []

/-- `AyxPlugin.all_inputs_completed`: false unless the plugin is
initialized; otherwise scans every required input name and flags false
when it has no connections or some connection is not complete. -/
def AyxPlugin.all_inputs_completed {ε : Type} (p : AyxPlugin ε) : Bool :=
  if p.initialized then
    p.required_input_names.all (fun name =>
      let connections := p.lookup_anchor name
      ¬ connections.length = 0 ∧ connections.all (fun c => c.is_complete))
  else
    false

/-- `AyxPlugin.clear_accumulated_records`: for every connection of every
input anchor, reset `record_list_in` to `[]`. -/
def AyxPlugin.clear_accumulated_records {ε : Type} (p : AyxPlugin ε) :
    AyxPlugin ε :=
  { p with input_anchors :=
      p.input_anchors.map (fun kv =>
        (kv.1, kv.2.map (fun c =>
          { c with record_vars := { c.record_vars with record_list_in := [] } }))) }

/-- The engine-facing record descriptor bound to an output sink
(`sdk.RecordInfo` populated by `interface_utils.build_ayx_record_info`).
Modelled from the spec: `build_ayx_record_info` builds the engine-facing
schema descriptor from the Column Schema (`interface_utilities` is not
under `src/`), so the descriptor is modelled as carrying the column
metadata it was built from. -/
structure RecordInfoOut where
  source_metadata : Option AnchorMetadata
deriving DecidableEq, Repr

/-- The output anchor's physical sink (`self._handler`). Modelled from the
spec: `init` binds the schema descriptor to the sink (metadata
negotiation) and `push_record` delivers one engine row downstream; the
sink is modelled by the descriptor it was initialised with and the ordered
rows pushed so far. `ρ` is the opaque engine output-record type. -/
structure OutputHandler (ρ : Type) where
  bound_record_info : Option RecordInfoOut
  pushed : List ρ

/-- `self._handler.init(record_info)`. -/
def OutputHandler.init {ρ : Type} (h : OutputHandler ρ) (ri : RecordInfoOut) :
    OutputHandler ρ :=
  { h with bound_record_info := some ri }

/-- `self._handler.push_record(record, False)`. -/
def OutputHandler.push_record {ρ : Type} (h : OutputHandler ρ) (r : ρ) :
    OutputHandler ρ :=
  { h with pushed := h.pushed ++ [r] }

/-- `OutputAnchor`: pending payload (`_data`), output column schema
(`_metadata`), the bound engine descriptor (`_record_info_out`), the
reusable record-creator builder (`_record_creator`, of opaque type `κ`)
and the physical sink (`_handler`). -/
structure OutputAnchor (ρ κ : Type) where
  data : Option PyObj
  metadata : Option AnchorMetadata
  record_info_out : Option RecordInfoOut
  record_creator : Option κ
  handler : OutputHandler ρ

/-- The `OutputAnchor.data` setter. -/
def OutputAnchor.set_data {ρ κ : Type} (a : OutputAnchor ρ κ)
    (d : Option PyObj) : OutputAnchor ρ κ :=
  { a with data := d }

/-- The `OutputAnchor.metadata` setter: unconditional assignment — the
source performs no committed-schema check. -/
def OutputAnchor.set_metadata {ρ κ : Type} (a : OutputAnchor ρ κ)
    (metadata : AnchorMetadata) : OutputAnchor ρ κ :=
  { a with metadata := some metadata }

/-- `OutputAnchor.get_data_list`: a DataFrame payload converts to its row
list; a Python-list payload whose first element is not itself a list is
wrapped as a singleton (`[self._data]`) — evaluating `self._data[0]`
raises IndexError when that list is empty; anything else (including
`None`) is returned unchanged. -/
def OutputAnchor.get_data_list {ρ κ : Type} (a : OutputAnchor ρ κ) :
    Except PyErr (Option PyObj) :=
  match a.data with
  | some (.dataframe rows) => .ok (some (dataframe_to_list rows))
  | some (.listObj []) => .error .indexError
  | some (.listObj (x :: xs)) =>
      if ¬ x.isListObj then .ok (some (.listObj [.listObj (x :: xs)]))
      else .ok (some (.listObj (x :: xs)))
  | d => .ok d

/-- `OutputAnchor.push_metadata`: when no engine descriptor is bound yet,
create one from the anchor's column metadata (`plugin.create_record_info`
plus `build_ayx_record_info`) and initialise the sink with it; when a
descriptor is already bound, do nothing — the source raises no error. -/
def OutputAnchor.push_metadata {ρ κ : Type} (a : OutputAnchor ρ κ) :
    OutputAnchor ρ κ :=
  match a.record_info_out with
  | some _ => a
  | none =>
      let ri : RecordInfoOut := ⟨a.metadata⟩
      { a with record_info_out := some ri, handler := a.handler.init ri }

/-- The `for value in out_values_list` loop of `OutputAnchor.push_records`:
encode each value against the captured column metadata and the bound
descriptor, threading `self._record_creator` through the iterations, and
collect the built records in order. `encode` abstracts
`interface_utils.build_ayx_record_from_list` (Record Codec `encode` in the
spec; `interface_utilities` is not under `src/`), returning the engine row
and the (re)used builder. -/
def push_loop {ρ κ : Type}
    (encode : PyObj → Option AnchorMetadata → RecordInfoOut → Option κ → ρ × κ)
    (md : Option AnchorMetadata) (ri : RecordInfoOut) :
    List PyObj → Option κ → List ρ × Option κ
  | [], creator => ([], creator)
  | v :: vs, creator =>
      let rc := encode v md ri creator
      let rest := push_loop encode md ri vs (some rc.2)
      (rc.1 :: rest.1, rest.2)

/-- `OutputAnchor.push_records`: normalize the payload via
`get_data_list` (propagating its IndexError), return unchanged when the
payload is `None`, bind the metadata when no descriptor is bound yet, then
push every encoded value of the (list-shaped) payload to the sink in
order and clear the payload to `None`. Iterating a non-list payload raises
TypeError (after the metadata was bound, matching Python statement
order). The result pairs the post-call anchor state with the raised
exception, if any. -/
def OutputAnchor.push_records {ρ κ : Type}
    (encode : PyObj → Option AnchorMetadata → RecordInfoOut → Option κ → ρ × κ)
    (a : OutputAnchor ρ κ) : OutputAnchor ρ κ × Option PyErr :=
  match a.get_data_list with
  | .error e => (a, some e)
  | .ok none => (a, none)
  | .ok (some out_values_list) =>
      let out_col_metadata := a.metadata
      let a1 := if a.record_info_out.isNone then a.push_metadata else a
      match a1.record_info_out with
      | none => (a1, some .attributeError)
      | some ri =>
          match out_values_list with
          | .listObj items =>
              let res := push_loop encode out_col_metadata ri items a1.record_creator
              ({ a1 with
                  handler := { a1.handler with pushed := a1.handler.pushed ++ res.1 },
                  record_creator := res.2,
                  data := none }, none)
          | _ => (a1, some .typeError)

/-- Modelled from the spec (§4.4 step 4): encode every tuple of the
normalized payload in payload order against the output schema, reusing the
prior iteration's builder object, and collect the resulting engine rows in
that same order together with the final builder. Stated independently of
`push_loop` so that `push_records` can be compared against it. -/
def encode_each {ρ κ : Type}
    (encode : PyObj → Option AnchorMetadata → RecordInfoOut → Option κ → ρ × κ)
    (md : Option AnchorMetadata) (ri : RecordInfoOut) :
    List PyObj → Option κ → List ρ × Option κ
  | [], creator => ([], creator)
  | v :: vs, creator =>
      let first := encode v md ri creator
      let rest := encode_each encode md ri vs (some first.2)
      (first.1 :: rest.1, rest.2)

/-- The connection stored at anchor position `i`, connection position `j`
(observer used to state frame properties of `clear_accumulated_records`). -/
def AyxPlugin.connection_at {ε : Type} (p : AyxPlugin ε) (i j : Nat) :
    Option (AyxPluginInterface ε) :=
  (p.input_anchors.get? i).bind (fun kv => kv.2.get? j)

/-- Concrete record codec used for witnesses: the engine row is the value
itself and the builder is trivial. -/
def encode0 : PyObj → Option AnchorMetadata → RecordInfoOut → Option Unit → PyObj × Unit :=
  fun v _ _ _ => (v, ())

/-- Concrete one-column schema. -/
def mdA : AnchorMetadata := ⟨[⟨"id", "int", 256, 0, "", ""⟩]⟩

/-- A different concrete one-column schema. -/
def mdB : AnchorMetadata := ⟨[⟨"val", "string", 256, 0, "", ""⟩]⟩

/-- Fresh output anchor: no payload, no schema, unbound sink. -/
def anchor0 : OutputAnchor PyObj Unit := ⟨none, none, none, none, ⟨none, []⟩⟩

/-- Output anchor holding an empty Python-list payload. -/
def anchorEmptyList : OutputAnchor PyObj Unit :=
  { anchor0 with data := some (.listObj []) }

/-- Output anchor with schema `mdA` and a one-row payload. -/
def anchorFirstPush : OutputAnchor PyObj Unit :=
  { anchor0 with metadata := some mdA,
                 data := some (.listObj [.listObj [.cell (.int 1)]]) }

/-- Anchor state after the first push (schema `mdA` is bound). -/
def anchorAfterFirst : OutputAnchor PyObj Unit :=
  (anchorFirstPush.push_records encode0).1

/-- Second push attempt: the metadata is changed to the different schema
`mdB` and a fresh payload is set. -/
def anchorSecondPush : OutputAnchor PyObj Unit :=
  (anchorAfterFirst.set_metadata mdB).set_data (some (.listObj [.listObj [.cell (.int 2)]]))

/-- Result (state, raised error) of the second push. -/
def secondPushResult : OutputAnchor PyObj Unit × Option PyErr :=
  anchorSecondPush.push_records encode0

/-- Input interface fixture with an empty buffer. -/
def iface0 : AyxPluginInterface Unit :=
  ⟨"Input", true, ⟨none, [], none⟩, ⟨false, 0, "batch"⟩⟩

/-- Input interface fixture with two buffered rows. -/
def ifaceRows : AyxPluginInterface Unit :=
  { iface0 with record_vars :=
      { iface0.record_vars with record_list_in := [[.int 1], [.int 2]] } }

/-- Decoder fixture: an `Int` engine record decodes to a one-cell row. -/
def decode0 : Int → Option Unit → Row × AnchorMetadata :=
  fun r _ => ([Cell.int r], mdA)

/-- Plugin fixture: one required input anchor with no attached
connections. -/
def plugin0 : AyxPlugin Unit := ⟨true, [("Input", [])], ["Input"]⟩

/-- Plugin fixture: one required input anchor with one connection holding
buffered rows. -/
def plugin1 : AyxPlugin Unit := ⟨true, [("Input", [ifaceRows])], ["Input"]⟩

/-- Output anchor with schema `mdA` and a non-empty DataFrame payload. -/
def anchorDataFramePush : OutputAnchor PyObj Unit :=
  { anchor0 with metadata := some mdA,
                 data := some (.dataframe [[.int 1], [.int 2]]) }

theorem accumulate_foldl_general {ε ρ : Type}
    (decode : ρ → Option ε → Row × AnchorMetadata)
    (recs : List ρ) (c : AyxPluginInterface ε) :
    (recs.foldl (fun st r => st.accumulate_record decode r) c).record_vars.record_list_in
      = c.record_vars.record_list_in
        ++ recs.map (fun r => (decode r c.record_vars.record_info_in).1) := by
  induction recs generalizing c with
  | nil => simp
  | cons r rs ih =>
      rw [List.foldl_cons, ih]
      simp [AyxPluginInterface.accumulate_record,
        AyxPluginInterface.create_record_for_input_records_list,
        AyxPluginInterface.set_col_metadata]

theorem set_completed_iterate {ε : Type} :
    ∀ n : Nat, 1 ≤ n → ∀ c : AyxPluginInterface ε,
      (AyxPluginInterface.set_completed)^[n] c
        = { c with state := { c.state with input_complete := true } } := by
  intro n
  induction n with
  | zero => intro h; exact absurd h (by decide)
  | succ k ih =>
      intro _ c
      rw [Function.iterate_succ_apply]
      rcases Nat.eq_zero_or_pos k with h0 | hpos
      · subst h0; rfl
      · rw [ih hpos (AyxPluginInterface.set_completed c)]
        rfl

/-- C5 (counterexample): `add_column` performs no duplicate-name check —
adding the column name "a" twice succeeds (raises nothing, since the
operation is total) and leaves a two-column schema with the duplicated
name, contradicting the claimed `DuplicateColumnError`. -/
theorem add_column_duplicate_cex :
    ((AnchorMetadata.mk []).add_column "a" "int" 256 0 "" ""
        |>.add_column "a" "string" 256 0 "" "").get_column_names = ["a", "a"]
      ∧ ((AnchorMetadata.mk []).add_column "a" "int" 256 0 "" ""
        |>.add_column "a" "string" 256 0 "" "").columns.length = 2 := by
  exact ⟨rfl, rfl⟩

/-- C5 (amended): `add_column` appends the descriptor built from its
arguments at the end of the schema unconditionally — no duplicate-name
check is made and no error is raised when a column of the same name is
already present. -/
theorem add_column_appends (m : AnchorMetadata) (name colType : String)
    (size scale : Nat) (source description : String) :
    (m.add_column name colType size scale source description).columns
      = m.columns ++ [⟨name, colType, size, scale, source, description⟩] :=
  rfl

/-- C6: with list input type, the `data` accessor in stream mode returns
only the first buffered tuple, while in batch mode it returns the entire
ordered buffer. -/
theorem data_stream_first_batch_all {ε : Type} (pandasAvailable : Bool)
    (c : AyxPluginInterface ε) (r : Row) (rest : List Row)
    (h : c.record_vars.record_list_in = r :: rest) :
    c.data pandasAvailable "stream" "list" = .ok (.row r) ∧
    c.data pandasAvailable "batch" "list" = .ok (.rows (r :: rest)) := by
  constructor
  · unfold AyxPluginInterface.data
    rw [if_pos ⟨rfl, rfl⟩, h]
  · unfold AyxPluginInterface.data
    rw [if_neg (by simp), if_pos rfl, h]

theorem data_stream_first_batch_all_witness :
    ifaceRows.data true "stream" "list" = .ok (.row [Cell.int 1]) ∧
    ifaceRows.data true "batch" "list" = .ok (.rows [[Cell.int 1], [Cell.int 2]]) :=
  ⟨(data_stream_first_batch_all true ifaceRows [Cell.int 1] [[Cell.int 2]] rfl).1,
   (data_stream_first_batch_all true ifaceRows [Cell.int 1] [[Cell.int 2]] rfl).2⟩

/-- C7: starting from an empty buffer, any sequence of `accumulate_record`
calls leaves a buffer whose length is the number of calls and whose
contents are the decoded tuples in call (FIFO) order. -/
theorem accumulate_record_fifo {ε ρ : Type}
    (decode : ρ → Option ε → Row × AnchorMetadata)
    (c0 : AyxPluginInterface ε) (recs : List ρ)
    (h : c0.record_vars.record_list_in = []) :
    (recs.foldl (fun st r => st.accumulate_record decode r) c0).record_vars.record_list_in
      = recs.map (fun r => (decode r c0.record_vars.record_info_in).1) ∧
    (recs.foldl (fun st r => st.accumulate_record decode r) c0).record_vars.record_list_in.length
      = recs.length := by
  have hmain := accumulate_foldl_general decode recs c0
  rw [h] at hmain
  simp only [List.nil_append] at hmain
  exact ⟨hmain, by rw [hmain, List.length_map]⟩

theorem accumulate_record_fifo_witness :
    (([1, 2, 3] : List Int).foldl
        (fun st r => st.accumulate_record decode0 r) iface0).record_vars.record_list_in
      = [[Cell.int 1], [Cell.int 2], [Cell.int 3]] :=
  (accumulate_record_fifo decode0 iface0 [1, 2, 3] rfl).1

/-- C9: `set_completed` is idempotent — after any positive number of
calls the interface reports complete, and every state component other
than the complete flag (the record vars, the name, the initialized flag,
the progress and the processing mode) is unchanged. -/
theorem set_completed_idempotent_frame {ε : Type} (c : AyxPluginInterface ε)
    (n : Nat) (hn : 1 ≤ n) :
    ((AyxPluginInterface.set_completed)^[n] c).is_complete = true ∧
    ((AyxPluginInterface.set_completed)^[n] c).name = c.name ∧
    ((AyxPluginInterface.set_completed)^[n] c).initialized = c.initialized ∧
    ((AyxPluginInterface.set_completed)^[n] c).record_vars = c.record_vars ∧
    ((AyxPluginInterface.set_completed)^[n] c).state.d_progress_percentage
      = c.state.d_progress_percentage ∧
    ((AyxPluginInterface.set_completed)^[n] c).state.data_processing_mode
      = c.state.data_processing_mode := by
  rw [set_completed_iterate n hn c]
  exact ⟨rfl, rfl, rfl, rfl, rfl, rfl⟩

theorem set_completed_idempotent_frame_witness :
    ((AyxPluginInterface.set_completed)^[3] iface0).is_complete = true ∧
    ((AyxPluginInterface.set_completed)^[3] iface0).record_vars = iface0.record_vars :=
  ⟨(set_completed_idempotent_frame iface0 3 (by decide)).1,
   (set_completed_idempotent_frame iface0 3 (by decide)).2.2.2.1⟩

/-- C10: in stream mode with list input type, reading `data` on an empty
buffer does not return an empty or null result — the unconditional
`record_list_in[0]` access raises IndexError. -/
theorem data_stream_empty_raises {ε : Type} (pandasAvailable : Bool)
    (c : AyxPluginInterface ε) (h : c.record_vars.record_list_in = []) :
    c.data pandasAvailable "stream" "list" = .error PyErr.indexError := by
  unfold AyxPluginInterface.data
  rw [if_pos ⟨rfl, rfl⟩, h]

theorem data_stream_empty_raises_witness :
    iface0.data true "stream" "list" = .error PyErr.indexError :=
  data_stream_empty_raises true iface0 rfl

/-- C3: `all_inputs_completed` is true iff the plugin is initialized,
every required input name has at least one attached connection, and every
connection of every required input is complete; in particular it is false
whenever some required input has zero connections. -/
theorem all_inputs_completed_iff {ε : Type} (p : AyxPlugin ε) :
    (p.all_inputs_completed = true ↔
      (p.initialized = true ∧
        ∀ name ∈ p.required_input_names,
          p.lookup_anchor name ≠ [] ∧
          ∀ c ∈ p.lookup_anchor name, c.is_complete = true)) ∧
    (∀ name ∈ p.required_input_names,
      p.lookup_anchor name = [] → p.all_inputs_completed = false) := by
  have hiff : p.all_inputs_completed = true ↔
      (p.initialized = true ∧
        ∀ name ∈ p.required_input_names,
          p.lookup_anchor name ≠ [] ∧
          ∀ c ∈ p.lookup_anchor name, c.is_complete = true) := by
    unfold AyxPlugin.all_inputs_completed
    cases hinit : p.initialized
    · simp [hinit]
    · simp [hinit, List.all_eq_true, List.length_eq_zero]
  refine ⟨hiff, ?_⟩
  intro name hmem hempty
  cases hall : p.all_inputs_completed
  · rfl
  · exact absurd hempty ((hiff.mp hall).2 name hmem).1

theorem all_inputs_completed_iff_witness :
    plugin0.all_inputs_completed = false :=
  (all_inputs_completed_iff plugin0).2 "Input" (List.mem_singleton.mpr rfl) rfl

theorem connection_at_clear {ε : Type} (p : AyxPlugin ε) (i j : Nat) :
    (p.clear_accumulated_records).connection_at i j
      = (p.connection_at i j).map (fun c =>
          { c with record_vars := { c.record_vars with record_list_in := [] } }) := by
  unfold AyxPlugin.connection_at AyxPlugin.clear_accumulated_records
  simp only [List.get?_map]
  cases p.input_anchors.get? i with
  | none => rfl
  | some kv =>
      simp [List.get?_map]

/-- C8: `clear_accumulated_records` resets every connection's buffer to
the empty list and changes nothing else — the plugin flag and required
names, the anchor names, and every connection's column metadata, engine
record descriptor, lifecycle state (complete flag, progress, mode), name
and initialized flag are all unchanged. -/
theorem clear_accumulated_frame {ε : Type} (p : AyxPlugin ε) :
    (p.clear_accumulated_records).initialized = p.initialized ∧
    (p.clear_accumulated_records).required_input_names = p.required_input_names ∧
    (p.clear_accumulated_records).input_anchors.length = p.input_anchors.length ∧
    (∀ i : Nat,
      ((p.clear_accumulated_records).input_anchors.get? i).map Prod.fst
        = (p.input_anchors.get? i).map Prod.fst) ∧
    ∀ i j : Nat,
      ((p.clear_accumulated_records).connection_at i j).map
          (fun c => c.record_vars.record_list_in)
        = (p.connection_at i j).map (fun _ => ([] : List Row)) ∧
      ((p.clear_accumulated_records).connection_at i j).map
          (fun c => c.record_vars.column_metadata)
        = (p.connection_at i j).map (fun c => c.record_vars.column_metadata) ∧
      ((p.clear_accumulated_records).connection_at i j).map
          (fun c => c.record_vars.record_info_in)
        = (p.connection_at i j).map (fun c => c.record_vars.record_info_in) ∧
      ((p.clear_accumulated_records).connection_at i j).map (fun c => c.state)
        = (p.connection_at i j).map (fun c => c.state) ∧
      ((p.clear_accumulated_records).connection_at i j).map (fun c => c.initialized)
        = (p.connection_at i j).map (fun c => c.initialized) ∧
      ((p.clear_accumulated_records).connection_at i j).map (fun c => c.name)
        = (p.connection_at i j).map (fun c => c.name) := by
  refine ⟨rfl, rfl, ?_, ?_, ?_⟩
  · unfold AyxPlugin.clear_accumulated_records
    simp
  · intro i
    unfold AyxPlugin.clear_accumulated_records
    simp only [List.get?_map]
    cases p.input_anchors.get? i with
    | none => rfl
    | some kv => rfl
  · intro i j
    rw [connection_at_clear]
    cases p.connection_at i j with
    | none => exact ⟨rfl, rfl, rfl, rfl, rfl, rfl⟩
    | some c => exact ⟨rfl, rfl, rfl, rfl, rfl, rfl⟩

theorem clear_accumulated_frame_witness :
    ((plugin1.clear_accumulated_records).connection_at 0 0).map
        (fun c => c.record_vars.record_list_in)
      = (plugin1.connection_at 0 0).map (fun _ => ([] : List Row)) ∧
    ((plugin1.clear_accumulated_records).connection_at 0 0).map (fun c => c.state)
      = (plugin1.connection_at 0 0).map (fun c => c.state) :=
  ⟨((clear_accumulated_frame plugin1).2.2.2.2 0 0).1,
   ((clear_accumulated_frame plugin1).2.2.2.2 0 0).2.2.2.1⟩

theorem push_metadata_of_none {ρ κ : Type} (a : OutputAnchor ρ κ)
    (h : a.record_info_out = none) :
    a.push_metadata
      = { a with record_info_out := some ⟨a.metadata⟩,
                 handler := a.handler.init ⟨a.metadata⟩ } := by
  unfold OutputAnchor.push_metadata
  rw [h]

theorem push_metadata_of_some {ρ κ : Type} (a : OutputAnchor ρ κ)
    (ri : RecordInfoOut) (h : a.record_info_out = some ri) :
    a.push_metadata = a := by
  unfold OutputAnchor.push_metadata
  rw [h]

theorem push_loop_eq_encode_each {ρ κ : Type}
    (encode : PyObj → Option AnchorMetadata → RecordInfoOut → Option κ → ρ × κ)
    (md : Option AnchorMetadata) (ri : RecordInfoOut) :
    ∀ (items : List PyObj) (creator : Option κ),
      push_loop encode md ri items creator = encode_each encode md ri items creator := by
  intro items
  induction items with
  | nil => intro creator; rfl
  | cons v vs ih =>
      intro creator
      simp only [push_loop, encode_each]
      rw [ih]

theorem encode_each_length {ρ κ : Type}
    (encode : PyObj → Option AnchorMetadata → RecordInfoOut → Option κ → ρ × κ)
    (md : Option AnchorMetadata) (ri : RecordInfoOut) :
    ∀ (items : List PyObj) (creator : Option κ),
      (encode_each encode md ri items creator).1.length = items.length := by
  intro items
  induction items with
  | nil => intro creator; rfl
  | cons v vs ih =>
      intro creator
      simp only [encode_each, List.length_cons]
      rw [ih]

theorem get_data_list_cons {ρ κ : Type} (a : OutputAnchor ρ κ)
    (x : PyObj) (xs : List PyObj) (h : a.data = some (.listObj (x :: xs))) :
    a.get_data_list
      = .ok (some (.listObj
          (if x.isListObj then x :: xs else [PyObj.listObj (x :: xs)]))) := by
  unfold OutputAnchor.get_data_list
  rw [h]
  cases hx : x.isListObj
  · simp [hx]
  · simp [hx]

/-- C2 (counterexample): pushing an anchor whose pending payload is the
empty Python list does not return silently — normalization evaluates
`self._data[0]` and raises IndexError. -/
theorem push_records_empty_payload_cex :
    anchorEmptyList.push_records encode0
      = (anchorEmptyList, some PyErr.indexError) := rfl

/-- C2 (amended): a null pending payload makes `push_records` return
immediately — no rows pushed, no metadata negotiation, the anchor is
entirely unchanged (so the record-info-out binding stays unset if it was
unset); but an EMPTY-LIST payload instead raises IndexError inside
`get_data_list` (before the null check), likewise pushing nothing and
negotiating nothing, with the anchor unchanged. -/
theorem push_records_null_vs_empty {ρ κ : Type}
    (encode : PyObj → Option AnchorMetadata → RecordInfoOut → Option κ → ρ × κ)
    (a : OutputAnchor ρ κ) :
    (a.data = none → a.push_records encode = (a, none)) ∧
    (a.data = some (.listObj []) →
      a.push_records encode = (a, some PyErr.indexError)) := by
  constructor
  · intro h
    unfold OutputAnchor.push_records OutputAnchor.get_data_list
    rw [h]
  · intro h
    unfold OutputAnchor.push_records OutputAnchor.get_data_list
    rw [h]

theorem push_records_null_vs_empty_witness :
    anchor0.push_records encode0 = (anchor0, none) ∧
    anchorEmptyList.push_records encode0
      = (anchorEmptyList, some PyErr.indexError) :=
  ⟨(push_records_null_vs_empty encode0 anchor0).1 rfl,
   (push_records_null_vs_empty encode0 anchorEmptyList).2 rfl⟩

/-- C1 (counterexample): after a first push bound schema `mdA`, a second
push that supplies the different schema `mdB` raises NO error at all
(there is no `SchemaAlreadyCommittedError` anywhere in the code — its
error component is `none`), and the sink stays bound to the descriptor
built from the first schema `mdA`. -/
theorem push_records_second_schema_cex :
    secondPushResult.2 = none ∧
    secondPushResult.1.handler.bound_record_info = some ⟨some mdA⟩ ∧
    mdA ≠ mdB :=
  ⟨rfl, rfl, by decide⟩

/-- C1 (amended): the engine-facing descriptor is bound to the sink at
most once per run — the first `push_records` call whose payload
normalizes to a non-null value builds the descriptor from the channel's
metadata and binds it; any later call (in particular one made after the
channel's metadata was changed to a different schema) leaves the bound
descriptor unchanged and raises no schema error — the sink remains bound
using only the first schema. -/
theorem push_records_binds_schema_once {ρ κ : Type}
    (encode : PyObj → Option AnchorMetadata → RecordInfoOut → Option κ → ρ × κ)
    (a : OutputAnchor ρ κ) :
    (a.record_info_out = none →
      ∀ vals : PyObj, a.get_data_list = .ok (some vals) →
        (a.push_records encode).1.record_info_out = some ⟨a.metadata⟩ ∧
        (a.push_records encode).1.handler.bound_record_info = some ⟨a.metadata⟩) ∧
    (∀ ri : RecordInfoOut, a.record_info_out = some ri →
      (a.push_records encode).1.record_info_out = some ri ∧
      (a.push_records encode).1.handler.bound_record_info
        = a.handler.bound_record_info) := by
  constructor
  · intro h vals hv
    unfold OutputAnchor.push_records
    rw [hv, h]
    rw [push_metadata_of_none a h]
    cases vals <;> simp [OutputHandler.init]
  · intro ri h
    unfold OutputAnchor.push_records
    cases hv : a.get_data_list with
    | error e => exact ⟨h, rfl⟩
    | ok vals =>
        cases vals with
        | none => exact ⟨h, rfl⟩
        | some v =>
            rw [h]
            cases v <;> simp [h]

theorem push_records_binds_schema_once_witness :
    (anchorFirstPush.push_records encode0).1.record_info_out = some ⟨some mdA⟩ ∧
    (anchorSecondPush.push_records encode0).1.handler.bound_record_info
      = anchorSecondPush.handler.bound_record_info :=
  ⟨((push_records_binds_schema_once encode0 anchorFirstPush).1 rfl
      (PyObj.listObj [PyObj.listObj [PyObj.cell (Cell.int 1)]]) rfl).1,
   ((push_records_binds_schema_once encode0 anchorSecondPush).2 ⟨some mdA⟩ rfl).2⟩

theorem get_data_list_dataframe {ρ κ : Type} (a : OutputAnchor ρ κ)
    (rows : List Row) (h : a.data = some (.dataframe rows)) :
    a.get_data_list
      = .ok (some (.listObj (rows.map (fun r => PyObj.listObj (r.map PyObj.cell))))) := by
  unfold OutputAnchor.get_data_list
  rw [h]
  simp [dataframe_to_list]

theorem push_records_normalized_ok {ρ κ : Type}
    (encode : PyObj → Option AnchorMetadata → RecordInfoOut → Option κ → ρ × κ)
    (a : OutputAnchor ρ κ) (items : List PyObj)
    (h : a.get_data_list = .ok (some (.listObj items))) :
    (a.push_records encode).2 = none ∧
    (a.push_records encode).1.data = none ∧
    (a.push_records encode).1.handler.pushed
      = a.handler.pushed ++
        (encode_each encode a.metadata
          (a.push_metadata.record_info_out.getD ⟨a.metadata⟩)
          items a.record_creator).1 ∧
    (a.push_records encode).1.record_creator
      = (encode_each encode a.metadata
          (a.push_metadata.record_info_out.getD ⟨a.metadata⟩)
          items a.record_creator).2 := by
  unfold OutputAnchor.push_records
  rw [h]
  cases hri : a.record_info_out with
  | none =>
      rw [push_metadata_of_none a hri]
      simp [hri, OutputHandler.init, push_loop_eq_encode_each]
  | some ri =>
      rw [push_metadata_of_some a ri hri]
      simp [hri, push_loop_eq_encode_each]

/-- C4: for every non-empty pending payload — a non-empty Python-list
payload or a non-empty DataFrame payload — `push_records` raises nothing,
normalizes the payload (wrapping a list as a singleton row sequence when
its first element is not itself a list; converting a table to its ordered
row list), pushes to the sink — in payload order, after any existing
pushed rows — exactly the rows produced by encoding each tuple against
the channel's metadata while threading the reusable record-creator
builder through the iterations (`encode_each`, the spec-side
description), stores the final builder, and clears the pending payload to
null. `norm` is the normalized payload dictated by the hypothesis. -/
theorem push_records_pushes_payload_in_order {ρ κ : Type}
    (encode : PyObj → Option AnchorMetadata → RecordInfoOut → Option κ → ρ × κ)
    (a : OutputAnchor ρ κ) (norm : List PyObj)
    (h : (∃ x xs, a.data = some (.listObj (x :: xs)) ∧
            norm = if x.isListObj then x :: xs else [PyObj.listObj (x :: xs)]) ∨
         (∃ rows, rows ≠ [] ∧ a.data = some (.dataframe rows) ∧
            norm = rows.map (fun r => PyObj.listObj (r.map PyObj.cell)))) :
    (a.push_records encode).2 = none ∧
    (a.push_records encode).1.data = none ∧
    (a.push_records encode).1.handler.pushed
      = a.handler.pushed ++
        (encode_each encode a.metadata
          (a.push_metadata.record_info_out.getD ⟨a.metadata⟩)
          norm a.record_creator).1 ∧
    (a.push_records encode).1.record_creator
      = (encode_each encode a.metadata
          (a.push_metadata.record_info_out.getD ⟨a.metadata⟩)
          norm a.record_creator).2 ∧
    (encode_each encode a.metadata
        (a.push_metadata.record_info_out.getD ⟨a.metadata⟩)
        norm a.record_creator).1.length
      = norm.length := by
  rcases h with ⟨x, xs, hd, hn⟩ | ⟨rows, _, hd, hn⟩
  · subst hn
    have hmain := push_records_normalized_ok encode a _ (get_data_list_cons a x xs hd)
    exact ⟨hmain.1, hmain.2.1, hmain.2.2.1, hmain.2.2.2,
      encode_each_length encode a.metadata _ _ a.record_creator⟩
  · subst hn
    have hmain := push_records_normalized_ok encode a _ (get_data_list_dataframe a rows hd)
    exact ⟨hmain.1, hmain.2.1, hmain.2.2.1, hmain.2.2.2,
      encode_each_length encode a.metadata _ _ a.record_creator⟩

theorem push_records_pushes_payload_in_order_witness :
    (anchorFirstPush.push_records encode0).2 = none ∧
    (anchorDataFramePush.push_records encode0).1.data = none ∧
    (anchorDataFramePush.push_records encode0).1.handler.pushed
      = [PyObj.listObj [PyObj.cell (Cell.int 1)],
         PyObj.listObj [PyObj.cell (Cell.int 2)]] :=
  ⟨(push_records_pushes_payload_in_order encode0 anchorFirstPush
      [PyObj.listObj [PyObj.cell (Cell.int 1)]]
      (Or.inl ⟨PyObj.listObj [PyObj.cell (Cell.int 1)], [], rfl, rfl⟩)).1,
   (push_records_pushes_payload_in_order encode0 anchorDataFramePush
      [PyObj.listObj [PyObj.cell (Cell.int 1)], PyObj.listObj [PyObj.cell (Cell.int 2)]]
      (Or.inr ⟨[[Cell.int 1], [Cell.int 2]], List.cons_ne_nil _ _, rfl, rfl⟩)).2.1,
   (push_records_pushes_payload_in_order encode0 anchorDataFramePush
      [PyObj.listObj [PyObj.cell (Cell.int 1)], PyObj.listObj [PyObj.cell (Cell.int 2)]]
      (Or.inr ⟨[[Cell.int 1], [Cell.int 2]], List.cons_ne_nil _ _, rfl, rfl⟩)).2.2.1⟩

end Snakeplane
